import Mathlib

/-!
Shallow embedding of the `tern` command wrapper
(`src/tern/wrapper.py`, `src/tern/ai_analyzer.py`, `src/tern/config.py`).

Python strings are modeled as Lean `String`s; Python slicing and
`rstrip` are modeled on the code-point list (`String.data`), matching
Python's code-point semantics.  Machine-level concerns (threads, OS
pipes) are modeled by making the environment explicit: the child's
per-stream line sequences, the positions at which a console echo raises
`BrokenPipeError`/`IOError`, the outcome of the `subprocess.Popen` call,
and the analyzer's outcome are all inputs of the `run` function.
-/

set_option autoImplicit false

namespace Tern

/-- Python `line.rstrip("\n")`: remove every trailing newline character. -/
def rstripNewline (s : String) : String :=
  ⟨(s.data.reverse.dropWhile (· == '\n')).reverse⟩

/-- Python slicing `s[:n]` on a `str`: the first `n` code points. -/
def strTake (s : String) (n : Nat) : String :=
  ⟨s.data.take n⟩

/-- Predicate `isPre needle hay`: `needle` is a prefix of `hay` (on code-point lists). -/
def isPre : List Char → List Char → Bool
  | [], _ => true
  | _ :: _, [] => false
  | a :: as, b :: bs => a == b && isPre as bs

/-- Predicate `subList needle hay`: `needle` occurs contiguously inside `hay`. -/
def subList (needle : List Char) : List Char → Bool
  | [] => isPre needle []
  | c :: rest => isPre needle (c :: rest) || subList needle rest

/-- Python `needle in hay` on strings: contiguous substring test. -/
def strContains (hay needle : String) : Bool :=
  subList needle.data hay.data

/-- The merged configuration dictionary, restricted to the keys the wrapper
and the analyzer read (`config.py` guarantees defaults exist, but callers of
`Config.get` supply their own call-site defaults, so each key is modeled as
optional). -/
structure Config where
  maxLines : Option Nat := none
  outputChars : Option Nat := none
  errorChars : Option Nat := none
  debug : Option Bool := none

/-- Models `self.config.get("limits.max_lines", 10000)` (wrapper.py line 65). -/
def Config.maxLinesLimit (c : Config) : Nat := c.maxLines.getD 10000

/-- Models `self.config.get("limits.output_chars", 15000)` (ai_analyzer.py line 69). -/
def Config.outputCharsLimit (c : Config) : Nat := c.outputChars.getD 15000

/-- Models `self.config.get("limits.error_chars", 5000)` (ai_analyzer.py line 70). -/
def Config.errorCharsLimit (c : Config) : Nat := c.errorChars.getD 5000

/-- Models `self.config.get("debug", False)` (wrapper.py line 149, ai_analyzer.py). -/
def Config.debugFlag (c : Config) : Bool := c.debug.getD false

/-- One `append` on a `collections.deque(maxlen := maxlen)` (wrapper.py
lines 64-67): the new element goes to the right and, past capacity, the
oldest element is evicted from the left. -/
def dequeAppend (maxlen : Nat) (xs : List String) (x : String) : List String :=
  let ys := xs ++ [x]
  ys.drop (ys.length - maxlen)

/-- All `N` appends on an initially empty `deque(maxlen := maxlen)`. -/
def ringAppendAll (maxlen : Nat) (lines : List String) : List String :=
  lines.foldl (dequeAppend maxlen) []

/-- Embeds `read_output` (wrapper.py lines 83-100).  `lines` are the
successive non-empty results of `pipe.readline` (the `iter(pipe.readline,
"")` sentinel, end-of-stream, is the end of the list).  Each line is
`rstrip`-ed and appended to the deque-backed capture, then echoed to the
console; `echoFails k = true` means the `print` of the `k`-th line raises
`BrokenPipeError`/`IOError`, on which the source executes `break`.  The
`queue.Queue` mirror (`queue_obj.put`) is never read by the program and is
not modeled; `storage` is the capture. -/
def read_output (echoFails : Nat → Bool) (maxlen : Nat) :
    List String → Nat → List String → List String
  | [], _, storage => storage
  | line :: rest, k, storage =>
    let storage := dequeAppend maxlen storage (rstripNewline line)
    if echoFails k then storage
    else read_output echoFails maxlen rest (k + 1) storage

/-- How the wrapper binds a standard stream of the child at spawn time. -/
inductive StdStream where
  /-- The stream is bound to a fresh pipe (`subprocess.PIPE`). -/
  | pipe
  /-- The stream is not redirected: the child inherits the parent's handle
  (Python's `Popen` default, `None`). -/
  | inherit
  /-- The stream is redirected to the null device (`subprocess.DEVNULL`). -/
  | devnull
deriving DecidableEq, Repr

/-- The argument record of the `subprocess.Popen` call (wrapper.py
lines 70-78).  The source passes no `stdin` keyword, so `stdin` is
Python's default: the child inherits the parent's standard input. -/
structure PopenCall where
  command : String
  shell : Bool
  stdout : StdStream
  stderr : StdStream
  stdin : StdStream
  text : Bool
  bufsize : Int
deriving DecidableEq, Repr

/-- The Popen call the wrapper makes for a given literal command. -/
def popenCall (cmd : String) : PopenCall :=
  { command := cmd
    shell := true
    stdout := StdStream.pipe
    stderr := StdStream.pipe
    stdin := StdStream.inherit
    text := true
    bufsize := 1 }

/-- The behavior of a successfully spawned child process: the raw lines each
stream delivers through `readline`, its exit code (possibly negative, for a
signal), and, for each stream, at which echo positions the console `print`
raises `BrokenPipeError`/`IOError`. -/
structure Child where
  stdoutLines : List String
  stderrLines : List String
  exit : Int
  stdoutEchoFails : Nat → Bool
  stderrEchoFails : Nat → Bool

/-- The Analysis collaborator: `analyze(command, output, errors, return_code)`
returns an optional commentary, or raises an exception carrying a message. -/
def AnalyzerFn : Type :=
  String → String → String → Int → Except String (Option String)

/-- The environment of one `CommandWrapper.run` invocation: the argv, the
result of `sys.stdout.isatty()`, and the outcome of the `Popen` call
(exception message, or the spawned child's behavior). -/
structure RunInput where
  args : List String
  isatty : Bool
  spawn : Except String Child

/-- Everything observable about one `CommandWrapper.run` invocation. -/
structure RunResult where
  exitCode : Int
  stdoutCapture : List String
  stderrCapture : List String
  /-- The `(command, output, errors, return_code)` tuples passed to
  `self.ai_analyzer.analyze`. -/
  analyzerCalls : List (String × String × String × Int)
  /-- Lines the wrapper itself prints to standard output. -/
  stdoutMessages : List String
  /-- Lines the wrapper itself prints to the error stream. -/
  stderrMessages : List String
  /-- The `subprocess.Popen` call, when one was made. -/
  popen : Option PopenCall

/-- The usage text printed for an empty argv (wrapper.py lines 27-35). -/
def usageLines : List String :=
  [ "Usage: tern <command> [args...]"
  , "Examples:"
  , "  tern terraform plan"
  , "  tern terraform apply --auto-approve"
  , "  tern ls -la"
  , "  tern echo 'hello world'"
  , ""
  , "TERN flags:"
  , "  --no-ai       Skip AI analysis for this command" ]

/-- Embeds `_analyze_and_display` (wrapper.py lines 126-151).  Returns the
analyze call made, the banner lines printed to standard output, and the
lines printed to the error stream.  `traceback.print_exc()` under the debug
setting is modeled as the marker message `"<traceback>"`. -/
def analyzeAndDisplay (cfg : Config) (an : AnalyzerFn) (command : String)
    (outputLines errorLines : List String) (returnCode : Int) :
    List (String × String × String × Int) × List String × List String :=
  let fullOutput := String.intercalate "\n" outputLines
  let fullErrors := String.intercalate "\n" errorLines
  let call := [(command, fullOutput, fullErrors, returnCode)]
  match an command fullOutput fullErrors returnCode with
  | Except.error e =>
    (call, [],
      ("\n❌ ERROR in TERN wrapper: " ++ e)
        :: (if cfg.debugFlag then ["<traceback>"] else []))
  | Except.ok none => (call, [], [])
  | Except.ok (some analysis) =>
    if analysis = "" then (call, [], [])
    else
      let bar := String.mk (List.replicate 60 '=')
      (call,
        [ "\n" ++ bar, "TERN AI Analysis:", bar, analysis, bar ++ "\n" ], [])

/-- The directive filtering of wrapper.py lines 38-42: when the skip-analysis
directive is present, every `"--no-ai"` token is removed; then the deprecated
no-op tokens `"--ai-verbose"` and `"--ai-summary"` are removed. -/
def cleanArgs (args : List String) : List String :=
  let skipAi := decide ("--no-ai" ∈ args)
  let args1 := if skipAi then args.filter (fun a => !(a == "--no-ai")) else args
  args1.filter (fun a => !(a == "--ai-verbose" || a == "--ai-summary"))

/-- The literal command: `" ".join(args)` after directive filtering
(wrapper.py line 44). -/
def commandString (args : List String) : String :=
  String.intercalate " " (cleanArgs args)

/-- The Analysis Gate (wrapper.py lines 46-59): piped standard output takes
precedence and disables analysis; otherwise the skip-analysis directive
decides. -/
def analysisEnabled (isatty : Bool) (args : List String) : Bool :=
  if !isatty then false else !(decide ("--no-ai" ∈ args))

/-- The warning block printed to the error stream when standard output is
piped (wrapper.py lines 50-57). -/
def pipedWarning (commandStr : String) : List String :=
  [ ""
  , "⚠️  TERN: Output is being piped - AI analysis disabled"
  , "   To analyze the full pipeline, use: " ++
      (if 60 < ("tern '" ++ commandStr ++ " | ...'").length then
        "tern '" ++ strTake commandStr 40 ++ "... | ...'"
      else "tern '" ++ commandStr ++ " | ...'")
  , "" ]

/-- Embeds `CommandWrapper.run` (wrapper.py lines 20-123). -/
def run (cfg : Config) (an : AnalyzerFn) (inp : RunInput) : RunResult :=
  if inp.args = [] then
    { exitCode := 1, stdoutCapture := [], stderrCapture := []
      analyzerCalls := [], stdoutMessages := usageLines
      stderrMessages := [], popen := none }
  else
    let commandStr := commandString inp.args
    let stdoutIsPiped := !inp.isatty
    let shouldAnalyze := analysisEnabled inp.isatty inp.args
    let pipedMsgs := if stdoutIsPiped then pipedWarning commandStr else []
    let maxLines := cfg.maxLinesLimit
    match inp.spawn with
    | Except.error e =>
      { exitCode := 1, stdoutCapture := [], stderrCapture := []
        analyzerCalls := [], stdoutMessages := []
        stderrMessages := pipedMsgs ++ ["Error running command: " ++ e]
        popen := some (popenCall commandStr) }
    | Except.ok child =>
      let outputLines := read_output child.stdoutEchoFails maxLines child.stdoutLines 0 []
      let errorLines := read_output child.stderrEchoFails maxLines child.stderrLines 0 []
      let returnCode := child.exit
      let ad :=
        if shouldAnalyze && (!outputLines.isEmpty || !errorLines.isEmpty) then
          analyzeAndDisplay cfg an commandStr outputLines errorLines returnCode
        else ([], [], [])
      { exitCode := returnCode
        stdoutCapture := outputLines, stderrCapture := errorLines
        analyzerCalls := ad.1, stdoutMessages := ad.2.1
        stderrMessages := pipedMsgs ++ ad.2.2
        popen := some (popenCall commandStr) }

/-- Embeds `AIAnalyzer._build_prompt` (ai_analyzer.py lines 67-87): the
f-string, with the two Python conditional slices
`output[:output_limit] if output else "(no output)"` and
`errors[:error_limit] if errors else "(no errors)"`. -/
def build_prompt (cfg : Config) (command output errors : String) (returnCode : Int) : String :=
  "Analyze this command output. Provide helpful commentary about what happened, explain any errors, and suggest improvements or best practices where relevant. Be concise and practical.\n\nCommand: `"
    ++ command
    ++ "`\nReturn Code: "
    ++ toString returnCode
    ++ "\n\nOutput:\n```\n"
    ++ (if output = "" then "(no output)" else strTake output cfg.outputCharsLimit)
    ++ "\n```\n\nErrors:\n```\n"
    ++ (if errors = "" then "(no errors)" else strTake errors cfg.errorCharsLimit)
    ++ "\n```"

/-! ## Supporting lemmas -/

theorem dequeAppend_length_le (C : Nat) (xs : List String) (x : String) :
    (dequeAppend C xs x).length ≤ C ∨ (dequeAppend C xs x).length = xs.length + 1 := by
  simp only [dequeAppend, List.length_drop, List.length_append, List.length_cons]
  omega

theorem foldl_dequeAppend (C : Nat) :
    ∀ (xs acc : List String), acc.length ≤ C →
      xs.foldl (dequeAppend C) acc = (acc ++ xs).drop (acc.length + xs.length - C) := by
  intro xs
  induction xs with
  | nil =>
    intro acc h
    simp [Nat.sub_eq_zero_of_le h]
  | cons x rest ih =>
    intro acc h
    have hlen : (dequeAppend C acc x).length ≤ C := by
      simp only [dequeAppend, List.length_drop, List.length_append, List.length_cons]
      omega
    have hle : acc.length + 1 - C ≤ (acc ++ [x]).length := by
      simp only [List.length_append, List.length_cons, List.length_nil]
      omega
    calc (x :: rest).foldl (dequeAppend C) acc
        = rest.foldl (dequeAppend C) (dequeAppend C acc x) := rfl
      _ = ((dequeAppend C acc x) ++ rest).drop
            ((dequeAppend C acc x).length + rest.length - C) := ih _ hlen
      _ = (acc ++ x :: rest).drop (acc.length + (x :: rest).length - C) := by
          simp only [dequeAppend, List.length_append, List.length_cons, List.length_nil,
            List.length_drop]
          rw [← List.drop_append_of_le_length hle, List.drop_drop]
          have hList : (acc ++ [x]) ++ rest = acc ++ x :: rest := by simp
          rw [hList]
          congr 1
          omega

theorem ringAppendAll_eq_drop (C : Nat) (lines : List String) :
    ringAppendAll C lines = lines.drop (lines.length - C) := by
  simpa using foldl_dequeAppend C lines [] (by simp)

theorem read_output_no_failure (C : Nat) :
    ∀ (lines : List String) (k : Nat) (acc : List String),
      read_output (fun _ => false) C lines k acc =
        (lines.map rstripNewline).foldl (dequeAppend C) acc := by
  intro lines
  induction lines with
  | nil => intro k acc; rfl
  | cons l rest ih => intro k acc; simp [read_output, ih]

theorem read_output_first_failure (E : Nat → Bool) (C : Nat) :
    ∀ (k : Nat) (lines : List String) (j : Nat) (acc : List String),
      (∀ i, i < k → E (j + i) = false) → E (j + k) = true → k < lines.length →
      read_output E C lines j acc =
        ((lines.take (k + 1)).map rstripNewline).foldl (dequeAppend C) acc := by
  intro k
  induction k with
  | zero =>
    intro lines j acc _ hf hk
    match lines with
    | [] => simp at hk
    | l :: rest =>
      have hj : E j = true := by simpa using hf
      simp [read_output, hj]
  | succ k ih =>
    intro lines j acc hb hf hk
    match lines with
    | [] => simp at hk
    | l :: rest =>
      have hj : E j = false := by simpa using hb 0 (Nat.succ_pos k)
      have hb1 : ∀ i, i < k → E (j + 1 + i) = false := by
        intro i hi
        have : j + 1 + i = j + (i + 1) := by omega
        rw [this]
        exact hb (i + 1) (by omega)
      have hf1 : E (j + 1 + k) = true := by
        have : j + 1 + k = j + (k + 1) := by omega
        rw [this]; exact hf
      have hk1 : k < rest.length := by simpa using hk
      simp [read_output, hj, ih rest (j + 1) _ hb1 hf1 hk1]

theorem isPre_append_self : ∀ (l r : List Char), isPre l (l ++ r) = true := by
  intro l
  induction l with
  | nil => intro r; rfl
  | cons c cs ih => intro r; simp [isPre, ih]

theorem subList_self_append (x q : List Char) : subList x (x ++ q) = true := by
  match x with
  | [] =>
    match q with
    | [] => rfl
    | c :: rest => simp [subList, isPre]
  | c :: cs =>
    have h : isPre (c :: cs) ((c :: cs) ++ q) = true := isPre_append_self (c :: cs) q
    simp only [List.cons_append] at h
    simp [subList, h]

theorem subList_append_left (x : List Char) :
    ∀ (l r : List Char), subList x r = true → subList x (l ++ r) = true := by
  intro l
  induction l with
  | nil => intro r h; simpa using h
  | cons c cs ih => intro r h; simp [subList, ih r h]

theorem isPre_refl : ∀ l : List Char, isPre l l = true := by
  intro l
  induction l with
  | nil => rfl
  | cons c cs ih => simp [isPre, ih]

theorem isPre_append_of : ∀ (x h r : List Char), isPre x h = true →
    isPre x (h ++ r) = true := by
  intro x
  induction x with
  | nil => intro h r _; rfl
  | cons a as ih =>
    intro h r hp
    match h with
    | [] => simp [isPre] at hp
    | b :: bs =>
      simp only [isPre, Bool.and_eq_true, beq_iff_eq] at hp
      simp [isPre, hp.1, ih bs r hp.2]

theorem subList_nil_left : ∀ hay : List Char, subList [] hay = true := by
  intro hay
  cases hay with
  | nil => rfl
  | cons c cs => simp [subList, isPre]

theorem subList_refl : ∀ x : List Char, subList x x = true := by
  intro x
  cases x with
  | nil => rfl
  | cons c cs => simp [subList, isPre_refl]

theorem subList_append_right : ∀ (x l r : List Char), subList x l = true →
    subList x (l ++ r) = true := by
  intro x l
  induction l with
  | nil =>
    intro r h
    have hx : x = [] := by
      cases x with
      | nil => rfl
      | cons a as => simp [subList, isPre] at h
    rw [hx]
    exact subList_nil_left _
  | cons c cs ih =>
    intro r h
    have hor : isPre x (c :: cs) = true ∨ subList x cs = true := by
      simpa [subList, Bool.or_eq_true] using h
    rcases hor with hp | hs
    · have := isPre_append_of x (c :: cs) r hp
      simp only [List.cons_append] at this ⊢
      simp [subList, this]
    · simp [subList, ih r hs]

theorem strContains_append_self (pre x : String) :
    strContains (pre ++ x) x = true := by
  unfold strContains
  rw [String.data_append]
  exact subList_append_left _ _ _ (subList_refl _)

theorem strContains_append_right (l r x : String)
    (h : strContains l x = true) : strContains (l ++ r) x = true := by
  unfold strContains at h ⊢
  rw [String.data_append]
  exact subList_append_right _ _ _ h

theorem strContains_append_middle (pre x post : String) :
    strContains (pre ++ x ++ post) x = true := by
  unfold strContains
  rw [String.data_append, String.data_append]
  rw [List.append_assoc]
  exact subList_append_left _ _ _ (subList_self_append _ _)

/-- The stdout capture the Relay produces for a spawned child. -/
def outOf (cfg : Config) (child : Child) : List String :=
  read_output child.stdoutEchoFails cfg.maxLinesLimit child.stdoutLines 0 []

/-- The stderr capture the Relay produces for a spawned child. -/
def errOf (cfg : Config) (child : Child) : List String :=
  read_output child.stderrEchoFails cfg.maxLinesLimit child.stderrLines 0 []

/-- The analyzer interaction (calls, stdout lines, stderr lines) of a run
with a spawned child. -/
def adOf (cfg : Config) (an : AnalyzerFn) (inp : RunInput) (child : Child) :
    List (String × String × String × Int) × List String × List String :=
  if analysisEnabled inp.isatty inp.args
      && (!(outOf cfg child).isEmpty || !(errOf cfg child).isEmpty) then
    analyzeAndDisplay cfg an (commandString inp.args) (outOf cfg child)
      (errOf cfg child) child.exit
  else ([], [], [])

theorem run_ok (cfg : Config) (an : AnalyzerFn) (inp : RunInput) (child : Child)
    (h1 : inp.args ≠ []) (h2 : inp.spawn = Except.ok child) :
    run cfg an inp =
      { exitCode := child.exit
        stdoutCapture := outOf cfg child
        stderrCapture := errOf cfg child
        analyzerCalls := (adOf cfg an inp child).1
        stdoutMessages := (adOf cfg an inp child).2.1
        stderrMessages :=
          (if inp.isatty then [] else pipedWarning (commandString inp.args))
            ++ (adOf cfg an inp child).2.2
        popen := some (popenCall (commandString inp.args)) } := by
  cases hAtty : inp.isatty <;>
    simp [run, h1, h2, hAtty, outOf, errOf, adOf]

theorem analyzeAndDisplay_fst (cfg : Config) (an : AnalyzerFn) (c : String)
    (o e : List String) (r : Int) :
    (analyzeAndDisplay cfg an c o e r).1 =
      [(c, String.intercalate "\n" o, String.intercalate "\n" e, r)] := by
  rcases h : an c (String.intercalate "\n" o) (String.intercalate "\n" e) r with m | v
  · simp [analyzeAndDisplay, h]
  · rcases v with _ | a
    · simp [analyzeAndDisplay, h]
    · simp only [analyzeAndDisplay, h]
      split <;> rfl

theorem analyzeAndDisplay_error (cfg : Config) (an : AnalyzerFn) (c : String)
    (o e : List String) (r : Int) (m : String)
    (h : an c (String.intercalate "\n" o) (String.intercalate "\n" e) r =
      Except.error m) :
    (analyzeAndDisplay cfg an c o e r).2.2 =
      ("\n❌ ERROR in TERN wrapper: " ++ m)
        :: (if cfg.debugFlag then ["<traceback>"] else []) := by
  simp [analyzeAndDisplay, h]

/-! ## Claim theorems -/

/-- C2: after `N` appends, a ring buffer of capacity `C ≥ 1` holds exactly
`min N C` entries, in arrival order — the last `C` appended lines when
`N > C` — and the Relay's capture with no echo failures is exactly this
ring-buffer fold of the rstripped lines. -/
theorem ringBuffer_last_C (C : Nat) (hC : 1 ≤ C) (lines : List String) :
    (ringAppendAll C lines).length = min lines.length C ∧
    ringAppendAll C lines = lines.drop (lines.length - C) ∧
    read_output (fun _ => false) C lines 0 [] =
      ringAppendAll C (lines.map rstripNewline) := by
  refine ⟨?_, ringAppendAll_eq_drop C lines, ?_⟩
  · rw [ringAppendAll_eq_drop, List.length_drop]
    omega
  · rw [read_output_no_failure]
    rfl

/-- C2 witness: capacity 5 with 10 appended lines keeps exactly lines 6–10. -/
theorem ringBuffer_last_C_witness :
    (ringAppendAll 5
        ["l1", "l2", "l3", "l4", "l5", "l6", "l7", "l8", "l9", "l10"]).length =
      min (["l1", "l2", "l3", "l4", "l5", "l6", "l7", "l8", "l9", "l10"] : List String).length 5 ∧
    ringAppendAll 5 ["l1", "l2", "l3", "l4", "l5", "l6", "l7", "l8", "l9", "l10"] =
      ["l6", "l7", "l8", "l9", "l10"] := by
  have h := ringBuffer_last_C 5 (by decide)
    ["l1", "l2", "l3", "l4", "l5", "l6", "l7", "l8", "l9", "l10"]
  exact ⟨h.1, by decide⟩

/-- C3: whenever the child was actually spawned, the run returns exactly the
child's exit code, including negative (signal) values. -/
theorem run_returns_childs_exit (cfg : Config) (an : AnalyzerFn) (inp : RunInput)
    (child : Child) (h1 : inp.args ≠ []) (h2 : inp.spawn = Except.ok child) :
    (run cfg an inp).exitCode = child.exit := by
  simp [run, h1, h2]

/-- C3 witness: a child exiting with the signal value -15 makes the run
return -15. -/
theorem run_returns_childs_exit_witness :
    (run {} (fun _ _ _ _ => Except.ok none)
      { args := ["sh"], isatty := true
        spawn := Except.ok
          { stdoutLines := [], stderrLines := [], exit := -15
            stdoutEchoFails := fun _ => false
            stderrEchoFails := fun _ => false } }).exitCode = -15 :=
  run_returns_childs_exit _ _ _ _ (by decide) rfl

/-- C7: a spawn-time failure yields synthetic exit code 1, empty captures,
no analyzer call, and a report on the error stream. -/
theorem spawn_failure_contained (cfg : Config) (an : AnalyzerFn) (inp : RunInput)
    (e : String) (h1 : inp.args ≠ []) (h2 : inp.spawn = Except.error e) :
    (run cfg an inp).exitCode = 1 ∧
    (run cfg an inp).stdoutCapture = [] ∧
    (run cfg an inp).stderrCapture = [] ∧
    (run cfg an inp).analyzerCalls = [] ∧
    ("Error running command: " ++ e) ∈ (run cfg an inp).stderrMessages := by
  simp [run, h1, h2]

/-- C7 witness: a failing spawn of `doesnotexist` is contained. -/
theorem spawn_failure_contained_witness :
    (run {} (fun _ _ _ _ => Except.ok none)
      { args := ["doesnotexist"], isatty := true
        spawn := Except.error "No such file or directory" }).exitCode = 1 ∧
    (run {} (fun _ _ _ _ => Except.ok none)
      { args := ["doesnotexist"], isatty := true
        spawn := Except.error "No such file or directory" }).stdoutCapture = [] ∧
    (run {} (fun _ _ _ _ => Except.ok none)
      { args := ["doesnotexist"], isatty := true
        spawn := Except.error "No such file or directory" }).stderrCapture = [] ∧
    (run {} (fun _ _ _ _ => Except.ok none)
      { args := ["doesnotexist"], isatty := true
        spawn := Except.error "No such file or directory" }).analyzerCalls = [] ∧
    ("Error running command: " ++ "No such file or directory") ∈
      (run {} (fun _ _ _ _ => Except.ok none)
        { args := ["doesnotexist"], isatty := true
          spawn := Except.error "No such file or directory" }).stderrMessages :=
  spawn_failure_contained _ _ _ _ (by decide) rfl

/-- C5: with the skip-analysis directive `--no-ai` present anywhere in argv,
the analyzer is never invoked; the shell receives exactly the remaining
tokens — the original order with every recognized directive token removed —
joined by single spaces, so the directive token is absent from the literal
command. -/
theorem noAi_directive_filtered (cfg : Config) (an : AnalyzerFn) (inp : RunInput)
    (h : "--no-ai" ∈ inp.args) :
    (run cfg an inp).analyzerCalls = [] ∧
    (run cfg an inp).popen = some (popenCall (String.intercalate " "
      (inp.args.filter
        (fun a => !(a == "--no-ai" || a == "--ai-verbose" || a == "--ai-summary"))))) ∧
    "--no-ai" ∉ inp.args.filter
      (fun a => !(a == "--no-ai" || a == "--ai-verbose" || a == "--ai-summary")) := by
  have hne : inp.args ≠ [] := by
    intro hnil
    rw [hnil] at h
    simp at h
  have hen : analysisEnabled inp.isatty inp.args = false := by
    cases hb : inp.isatty <;> simp [analysisEnabled, h, hb]
  have hclean : cleanArgs inp.args =
      inp.args.filter
        (fun a => !(a == "--no-ai" || a == "--ai-verbose" || a == "--ai-summary")) := by
    unfold cleanArgs
    rw [decide_eq_true h]
    simp only [if_true]
    rw [List.filter_filter]
    refine List.filter_congr ?_
    intro a _
    cases ha : (a == "--no-ai") <;> cases hb : (a == "--ai-verbose") <;>
      cases hc : (a == "--ai-summary") <;> simp [ha, hb, hc]
  have hcalls : (run cfg an inp).analyzerCalls = [] := by
    rcases hs : inp.spawn with e | child
    · simp [run, hne, hs]
    · simp [run_ok cfg an inp child hne hs, adOf, hen]
  have hpop : (run cfg an inp).popen = some (popenCall (commandString inp.args)) := by
    rcases hs : inp.spawn with e | child
    · simp [run, hne, hs]
    · simp [run_ok cfg an inp child hne hs]
  refine ⟨hcalls, ?_, ?_⟩
  · rw [hpop, commandString, hclean]
  · simp [List.mem_filter]

/-- C5 witness: `tern echo --no-ai hi` runs `echo hi` and never calls the
analyzer. -/
theorem noAi_directive_filtered_witness :
    (run {} (fun _ _ _ _ => Except.ok none)
      { args := ["echo", "--no-ai", "hi"], isatty := true
        spawn := Except.ok
          { stdoutLines := ["hi\n"], stderrLines := [], exit := 0
            stdoutEchoFails := fun _ => false
            stderrEchoFails := fun _ => false } }).analyzerCalls = [] ∧
    (run {} (fun _ _ _ _ => Except.ok none)
      { args := ["echo", "--no-ai", "hi"], isatty := true
        spawn := Except.ok
          { stdoutLines := ["hi\n"], stderrLines := [], exit := 0
            stdoutEchoFails := fun _ => false
            stderrEchoFails := fun _ => false } }).popen =
      some (popenCall "echo hi") ∧
    "--no-ai" ∉ (["echo", "--no-ai", "hi"].filter
      (fun a => !(a == "--no-ai" || a == "--ai-verbose" || a == "--ai-summary"))) := by
  have h := noAi_directive_filtered {} (fun _ _ _ _ => Except.ok none)
    { args := ["echo", "--no-ai", "hi"], isatty := true
      spawn := Except.ok
        { stdoutLines := ["hi\n"], stderrLines := [], exit := 0
          stdoutEchoFails := fun _ => false
          stderrEchoFails := fun _ => false } } (by decide)
  exact ⟨h.1, h.2.1, h.2.2⟩

/-- Refinement of the spec's words for C6: a spawn configuration under which
the child "can never block waiting on interactive input" is one whose
standard input is redirected to the null device; an inherited or piped
standard input can make a reading child block. -/
def stdinCannotBlock (p : PopenCall) : Prop :=
  p.stdin = StdStream.devnull

/-- C6 counterexample: the `Popen` call of a run passes no `stdin` argument,
so the child inherits the parent's standard input — the spawn configuration
does not satisfy the spec-side non-blocking-stdin property. -/
theorem stdin_inherited_counterexample :
    (run {} (fun _ _ _ _ => Except.ok none)
      { args := ["cat"], isatty := true, spawn := Except.error "e" }).popen =
        some (popenCall "cat") ∧
    (popenCall "cat").stdin = StdStream.inherit ∧
    ¬ stdinCannotBlock (popenCall "cat") := by
  refine ⟨rfl, rfl, ?_⟩
  simp [stdinCannotBlock, popenCall]

/-- C6 amended: the child is spawned through a shell with standard output
and standard error each bound to its own pipe; standard input is not
redirected at all — it is inherited from the parent process. -/
theorem spawn_shell_pipes_inherited_stdin (cfg : Config) (an : AnalyzerFn)
    (inp : RunInput) (h : inp.args ≠ []) :
    ∃ p : PopenCall, (run cfg an inp).popen = some p ∧
      p.command = commandString inp.args ∧ p.shell = true ∧
      p.stdout = StdStream.pipe ∧ p.stderr = StdStream.pipe ∧
      p.stdin = StdStream.inherit := by
  refine ⟨popenCall (commandString inp.args), ?_, rfl, rfl, rfl, rfl, rfl⟩
  rcases hs : inp.spawn with e | child
  · simp [run, h, hs]
  · simp [run_ok cfg an inp child h hs]

/-- C6 amended, witness at `ls -la`. -/
theorem spawn_shell_pipes_inherited_stdin_witness :
    ∃ p : PopenCall,
      (run {} (fun _ _ _ _ => Except.ok none)
        { args := ["ls", "-la"], isatty := true
          spawn := Except.error "e" }).popen = some p ∧
      p.command = commandString ["ls", "-la"] ∧ p.shell = true ∧
      p.stdout = StdStream.pipe ∧ p.stderr = StdStream.pipe ∧
      p.stdin = StdStream.inherit :=
  spawn_shell_pipes_inherited_stdin _ _ _ (by decide)

/-- C9: with a spawned child, the analyzer is invoked exactly when analysis
is enabled and at least one of the two captures is non-empty. -/
theorem analyzer_called_iff (cfg : Config) (an : AnalyzerFn) (inp : RunInput)
    (child : Child) (h1 : inp.args ≠ []) (h2 : inp.spawn = Except.ok child) :
    (run cfg an inp).analyzerCalls ≠ [] ↔
      (analysisEnabled inp.isatty inp.args = true ∧
        ((run cfg an inp).stdoutCapture ≠ [] ∨
          (run cfg an inp).stderrCapture ≠ [])) := by
  rw [run_ok cfg an inp child h1 h2]
  simp only [adOf]
  by_cases he : analysisEnabled inp.isatty inp.args = true
  · simp only [he, Bool.true_and, true_and]
    by_cases ho : outOf cfg child = []
    · by_cases herr : errOf cfg child = []
      · simp [ho, herr]
      · simp [ho, herr, analyzeAndDisplay_fst]
    · simp [ho, analyzeAndDisplay_fst]
  · have he' : analysisEnabled inp.isatty inp.args = false := by
      simpa using he
    simp [he']

/-- C9 witness: `false` (enabled analysis, both captures empty) does not
invoke the analyzer; `echo hello` (non-empty stdout capture) does. -/
theorem analyzer_called_iff_witness :
    (run {} (fun _ _ _ _ => Except.ok none)
      { args := ["false"], isatty := true
        spawn := Except.ok
          { stdoutLines := [], stderrLines := [], exit := 1
            stdoutEchoFails := fun _ => false
            stderrEchoFails := fun _ => false } }).analyzerCalls = [] ∧
    (run {} (fun _ _ _ _ => Except.ok none)
      { args := ["echo", "hello"], isatty := true
        spawn := Except.ok
          { stdoutLines := ["hello\n"], stderrLines := [], exit := 0
            stdoutEchoFails := fun _ => false
            stderrEchoFails := fun _ => false } }).analyzerCalls ≠ [] := by
  constructor
  · have h := analyzer_called_iff {} (fun _ _ _ _ => Except.ok none)
      { args := ["false"], isatty := true
        spawn := Except.ok
          { stdoutLines := [], stderrLines := [], exit := 1
            stdoutEchoFails := fun _ => false
            stderrEchoFails := fun _ => false } }
      { stdoutLines := [], stderrLines := [], exit := 1
        stdoutEchoFails := fun _ => false
        stderrEchoFails := fun _ => false } (by decide) rfl
    by_contra hne
    rcases h.mp hne with ⟨_, hc | hc⟩ <;> exact hc rfl
  · have h := analyzer_called_iff {} (fun _ _ _ _ => Except.ok none)
      { args := ["echo", "hello"], isatty := true
        spawn := Except.ok
          { stdoutLines := ["hello\n"], stderrLines := [], exit := 0
            stdoutEchoFails := fun _ => false
            stderrEchoFails := fun _ => false } }
      { stdoutLines := ["hello\n"], stderrLines := [], exit := 0
        stdoutEchoFails := fun _ => false
        stderrEchoFails := fun _ => false } (by decide) rfl
    exact h.mpr ⟨rfl, Or.inl (by decide)⟩

theorem strContains_append_left (l r x : String) (h : strContains r x = true) :
    strContains (l ++ r) x = true := by
  unfold strContains at h ⊢
  rw [String.data_append]
  exact subList_append_left _ _ _ h

theorem pipedWarning_short (c : String) (h : c.length ≤ 47) :
    pipedWarning c =
      [ ""
      , "⚠️  TERN: Output is being piped - AI analysis disabled"
      , "   To analyze the full pipeline, use: " ++ ("tern '" ++ c ++ " | ...'")
      , "" ] := by
  have hlen : ("tern '" ++ c ++ " | ...'").length = c.length + 13 := by
    rw [String.length_append, String.length_append]
    have h1 : ("tern '" : String).length = 6 := rfl
    have h2 : (" | ...'" : String).length = 7 := rfl
    rw [h1, h2]
    omega
  unfold pipedWarning
  rw [hlen, if_neg (by omega)]

/-- C4 amended: if the orchestrator's standard output is not an interactive
terminal, the analyzer is never invoked, regardless of directives; for a
nonempty argument list the piped-output warning block is emitted on the
error stream, and when the literal command is at most 47 characters long
(so that the suggested wrapper invocation fits in 60 characters) one of its
messages names the literal command. -/
theorem nonInteractive_never_analyzes (cfg : Config) (an : AnalyzerFn)
    (inp : RunInput) (hatty : inp.isatty = false) :
    (run cfg an inp).analyzerCalls = [] ∧
    (inp.args ≠ [] →
      (∀ m ∈ pipedWarning (commandString inp.args),
        m ∈ (run cfg an inp).stderrMessages) ∧
      ((commandString inp.args).length ≤ 47 →
        ∃ m ∈ (run cfg an inp).stderrMessages,
          strContains m (commandString inp.args) = true)) := by
  by_cases hargs : inp.args = []
  · refine ⟨by simp [run, hargs], fun hne => absurd hargs hne⟩
  · have hen : analysisEnabled inp.isatty inp.args = false := by
      simp [analysisEnabled, hatty]
    have hmsgs : ∀ m ∈ pipedWarning (commandString inp.args),
        m ∈ (run cfg an inp).stderrMessages := by
      intro m hm
      rcases hs : inp.spawn with e | child
      · simp only [run, if_neg hargs, hs]
        exact List.mem_append_left _ (by simpa [hatty] using hm)
      · rw [run_ok cfg an inp child hargs hs]
        exact List.mem_append_left _ (by simpa [hatty] using hm)
    refine ⟨?_, fun _ => ⟨hmsgs, fun hshort => ?_⟩⟩
    · rcases hs : inp.spawn with e | child
      · simp [run, hargs, hs]
      · simp [run_ok cfg an inp child hargs hs, adOf, hen]
    · refine ⟨"   To analyze the full pipeline, use: " ++
        ("tern '" ++ commandString inp.args ++ " | ...'"), ?_, ?_⟩
      · apply hmsgs
        rw [pipedWarning_short _ hshort]
        simp
      · exact strContains_append_left _ _ _
          (strContains_append_middle "tern '" (commandString inp.args) " | ...'")

/-- C4 amended, witness: piped stdout with `ls` — analyzer not invoked and
an error-stream message contains the literal command. -/
theorem nonInteractive_never_analyzes_witness :
    (run {} (fun _ _ _ _ => Except.ok none)
      { args := ["ls"], isatty := false
        spawn := Except.ok
          { stdoutLines := ["f\n"], stderrLines := [], exit := 0
            stdoutEchoFails := fun _ => false
            stderrEchoFails := fun _ => false } }).analyzerCalls = [] ∧
    (∃ m ∈ (run {} (fun _ _ _ _ => Except.ok none)
      { args := ["ls"], isatty := false
        spawn := Except.ok
          { stdoutLines := ["f\n"], stderrLines := [], exit := 0
            stdoutEchoFails := fun _ => false
            stderrEchoFails := fun _ => false } }).stderrMessages,
      strContains m (commandString ["ls"]) = true) := by
  have h := nonInteractive_never_analyzes {} (fun _ _ _ _ => Except.ok none)
    { args := ["ls"], isatty := false
      spawn := Except.ok
        { stdoutLines := ["f\n"], stderrLines := [], exit := 0
          stdoutEchoFails := fun _ => false
          stderrEchoFails := fun _ => false } } rfl
  exact ⟨h.1, (h.2 (by decide)).2 (by decide)⟩

/-- C4 counterexample: for a 48-character command under piped standard
output, no message emitted on the error stream contains the literal command
— the warning names only a 40-character prefix. -/
theorem longCommand_warning_lacks_command :
    (run {} (fun _ _ _ _ => Except.ok none)
      { args := ["aaaaaaaaaaaaaaaaaaaaaaaaaaaaaaaaaaaaaaaaaaaaaaaa"]
        isatty := false
        spawn := Except.error "x" }).stderrMessages ≠ [] ∧
    ∀ m ∈ (run {} (fun _ _ _ _ => Except.ok none)
      { args := ["aaaaaaaaaaaaaaaaaaaaaaaaaaaaaaaaaaaaaaaaaaaaaaaa"]
        isatty := false
        spawn := Except.error "x" }).stderrMessages,
      strContains m "aaaaaaaaaaaaaaaaaaaaaaaaaaaaaaaaaaaaaaaaaaaaaaaa" = false := by
  decide

/-- C1 counterexample: the child emits three lines and the console echo of
line 2 raises a broken-pipe failure.  The source's `break` ends the Relay
loop, so the capture holds only lines 1-2 — not all 3 lines as the claim
states. -/
theorem echo_failure_loses_tail :
    (run {} (fun _ _ _ _ => Except.ok none)
      { args := ["mycmd"], isatty := true
        spawn := Except.ok
          { stdoutLines := ["l1\n", "l2\n", "l3\n"], stderrLines := []
            exit := 0
            stdoutEchoFails := fun k => k == 1
            stderrEchoFails := fun _ => false } }).stdoutCapture = ["l1", "l2"] ∧
    (["l1", "l2"] : List String) ≠ ["l1", "l2", "l3"] := by
  constructor
  · rfl
  · decide

/-- C1 amended: a broken-pipe (or other I/O) failure while echoing the
`k`-th line does not lose that already-appended line and never changes the
returned exit code — it is still the child's real code — but it does end
that Relay's loop: the capture holds exactly the ring-buffer fold of the
lines up to and including the one whose echo failed, and nothing after. -/
theorem echo_failure_ends_relay (cfg : Config) (an : AnalyzerFn) (inp : RunInput)
    (child : Child) (k : Nat)
    (h1 : inp.args ≠ []) (h2 : inp.spawn = Except.ok child)
    (hb : ∀ i, i < k → child.stdoutEchoFails i = false)
    (hf : child.stdoutEchoFails k = true)
    (hk : k < child.stdoutLines.length) :
    (run cfg an inp).exitCode = child.exit ∧
    (run cfg an inp).stdoutCapture =
      ringAppendAll cfg.maxLinesLimit
        ((child.stdoutLines.take (k + 1)).map rstripNewline) := by
  have hro := read_output_first_failure child.stdoutEchoFails cfg.maxLinesLimit
    k child.stdoutLines 0 [] (by simpa using hb) (by simpa using hf) hk
  rw [run_ok cfg an inp child h1 h2]
  exact ⟨rfl, by simp [outOf, hro, ringAppendAll]⟩

/-- C1 amended, witness: broken pipe while echoing line 2 of 3 leaves
exactly lines 1-2 in the capture and the exit code is the child's. -/
theorem echo_failure_ends_relay_witness :
    (run {} (fun _ _ _ _ => Except.ok none)
      { args := ["yourcmd"], isatty := true
        spawn := Except.ok
          { stdoutLines := ["a1\n", "a2\n", "a3\n"], stderrLines := []
            exit := 7
            stdoutEchoFails := fun k => k == 1
            stderrEchoFails := fun _ => false } }).exitCode = 7 ∧
    (run {} (fun _ _ _ _ => Except.ok none)
      { args := ["yourcmd"], isatty := true
        spawn := Except.ok
          { stdoutLines := ["a1\n", "a2\n", "a3\n"], stderrLines := []
            exit := 7
            stdoutEchoFails := fun k => k == 1
            stderrEchoFails := fun _ => false } }).stdoutCapture =
      ringAppendAll (({} : Config)).maxLinesLimit
        (((["a1\n", "a2\n", "a3\n"] : List String).take (1 + 1)).map rstripNewline) :=
  echo_failure_ends_relay {} (fun _ _ _ _ => Except.ok none)
    { args := ["yourcmd"], isatty := true
      spawn := Except.ok
        { stdoutLines := ["a1\n", "a2\n", "a3\n"], stderrLines := []
          exit := 7
          stdoutEchoFails := fun k => k == 1
          stderrEchoFails := fun _ => false } }
    { stdoutLines := ["a1\n", "a2\n", "a3\n"], stderrLines := []
      exit := 7
      stdoutEchoFails := fun k => k == 1
      stderrEchoFails := fun _ => false } 1 (by decide) rfl
    (by
      intro i hi
      have hzero : i = 0 := by omega
      rw [hzero]
      rfl)
    rfl (by decide)

theorem traceback_ne_errorMsg (s : String) :
    ("\n❌ ERROR in TERN wrapper: " ++ s) ≠ "<traceback>" := by
  intro heq
  have hl := congrArg String.length heq
  rw [String.length_append] at hl
  have hp : ("\n❌ ERROR in TERN wrapper: " : String).length = 26 := by decide
  have ht : ("<traceback>" : String).length = 11 := by decide
  rw [hp, ht] at hl
  omega

theorem traceback_notin_pipedWarning (c : String) :
    "<traceback>" ∉ pipedWarning c := by
  unfold pipedWarning
  intro hmem
  simp only [List.mem_cons, List.not_mem_nil, or_false] at hmem
  rcases hmem with h | h | h | h
  · exact absurd h (by decide)
  · exact absurd h (by decide)
  · have hl := congrArg String.length h
    rw [String.length_append] at hl
    have hp : ("   To analyze the full pipeline, use: " : String).length = 38 := by
      decide
    have ht : ("<traceback>" : String).length = 11 := by decide
    rw [hp, ht] at hl
    omega
  · exact absurd h (by decide)

/-- C8: if the call into the Analysis collaborator raises, the exception is
caught: the run still returns exactly the child's exit code, a wrapper error
message carrying the exception text is reported on the error stream, and a
stack trace accompanies it exactly when the debug setting is on. -/
theorem analyzer_exception_contained (cfg : Config) (an : AnalyzerFn)
    (inp : RunInput) (child : Child) (c o e : String) (r : Int) (m : String)
    (h1 : inp.args ≠ []) (h2 : inp.spawn = Except.ok child)
    (h3 : (run cfg an inp).analyzerCalls = [(c, o, e, r)])
    (h4 : an c o e r = Except.error m) :
    (run cfg an inp).exitCode = child.exit ∧
    ("\n❌ ERROR in TERN wrapper: " ++ m) ∈ (run cfg an inp).stderrMessages ∧
    (cfg.debugFlag = true → "<traceback>" ∈ (run cfg an inp).stderrMessages) ∧
    (cfg.debugFlag = false → "<traceback>" ∉ (run cfg an inp).stderrMessages) := by
  have hEX : (run cfg an inp).exitCode = child.exit := by
    rw [run_ok cfg an inp child h1 h2]
  have hSE : (run cfg an inp).stderrMessages =
      (if inp.isatty then [] else pipedWarning (commandString inp.args))
        ++ (adOf cfg an inp child).2.2 := by
    rw [run_ok cfg an inp child h1 h2]
  have hAC : (run cfg an inp).analyzerCalls = (adOf cfg an inp child).1 := by
    rw [run_ok cfg an inp child h1 h2]
  rw [hAC] at h3
  by_cases hcnd : (analysisEnabled inp.isatty inp.args
      && (!(outOf cfg child).isEmpty || !(errOf cfg child).isEmpty)) = true
  · have hAD : adOf cfg an inp child =
        analyzeAndDisplay cfg an (commandString inp.args) (outOf cfg child)
          (errOf cfg child) child.exit := by
      unfold adOf
      rw [if_pos hcnd]
    rw [hAD, analyzeAndDisplay_fst] at h3
    have hcomp : commandString inp.args = c ∧
        String.intercalate "\n" (outOf cfg child) = o ∧
        String.intercalate "\n" (errOf cfg child) = e ∧ child.exit = r := by
      simpa [Prod.ext_iff] using h3
    obtain ⟨hc, ho, he, hr⟩ := hcomp
    have hcall : an (commandString inp.args)
        (String.intercalate "\n" (outOf cfg child))
        (String.intercalate "\n" (errOf cfg child)) child.exit =
        Except.error m := by
      rw [hc, ho, he, hr]
      exact h4
    have herr := analyzeAndDisplay_error cfg an (commandString inp.args)
      (outOf cfg child) (errOf cfg child) child.exit m hcall
    refine ⟨hEX, ?_, ?_, ?_⟩
    · rw [hSE, hAD, herr]
      exact List.mem_append_right _ (List.mem_cons_self _ _)
    · intro hdbg
      rw [hSE, hAD, herr, hdbg]
      exact List.mem_append_right _ (by simp)
    · intro hdbg
      rw [hSE, hAD, herr, hdbg]
      intro hmem
      rcases List.mem_append.mp hmem with hm | hm
      · cases hAtty : inp.isatty with
        | false =>
          rw [hAtty] at hm
          simp only [Bool.false_eq_true, if_false] at hm
          exact traceback_notin_pipedWarning _ hm
        | true =>
          rw [hAtty] at hm
          simp at hm
      · simp at hm
        exact traceback_ne_errorMsg m hm.symm
  · have hAD : adOf cfg an inp child = ([], [], []) := by
      unfold adOf
      rw [if_neg hcnd]
    rw [hAD] at h3
    exact absurd h3 (by simp)

/-- C8 witness: a raising analyzer leaves the exit code at the child's 0,
reports the wrapper error, and prints no stack trace when debug is off. -/
theorem analyzer_exception_contained_witness :
    (run {} (fun _ _ _ _ => Except.error "boom")
      { args := ["x"], isatty := true
        spawn := Except.ok
          { stdoutLines := ["a\n"], stderrLines := [], exit := 0
            stdoutEchoFails := fun _ => false
            stderrEchoFails := fun _ => false } }).exitCode = 0 ∧
    ("\n❌ ERROR in TERN wrapper: " ++ "boom") ∈
      (run {} (fun _ _ _ _ => Except.error "boom")
        { args := ["x"], isatty := true
          spawn := Except.ok
            { stdoutLines := ["a\n"], stderrLines := [], exit := 0
              stdoutEchoFails := fun _ => false
              stderrEchoFails := fun _ => false } }).stderrMessages ∧
    "<traceback>" ∉
      (run {} (fun _ _ _ _ => Except.error "boom")
        { args := ["x"], isatty := true
          spawn := Except.ok
            { stdoutLines := ["a\n"], stderrLines := [], exit := 0
              stdoutEchoFails := fun _ => false
              stderrEchoFails := fun _ => false } }).stderrMessages := by
  have h := analyzer_exception_contained {} (fun _ _ _ _ => Except.error "boom")
    { args := ["x"], isatty := true
      spawn := Except.ok
        { stdoutLines := ["a\n"], stderrLines := [], exit := 0
          stdoutEchoFails := fun _ => false
          stderrEchoFails := fun _ => false } }
    { stdoutLines := ["a\n"], stderrLines := [], exit := 0
      stdoutEchoFails := fun _ => false
      stderrEchoFails := fun _ => false }
    "x" "a" "" 0 "boom" (by decide) rfl rfl rfl
  exact ⟨h.1, h.2.1, h.2.2.2 rfl⟩

/-- C10: the prompt embeds the stdout text truncated to
`limits.output_chars` code points and the stderr text truncated to
`limits.error_chars` code points; an empty text is replaced by the
`"(no output)"` / `"(no errors)"` placeholder; the call-site defaults for
the two limits are 15000 and 5000. -/
theorem prompt_truncates_captures (cfg : Config) (command output errors : String)
    (rc : Int) :
    (output ≠ "" →
      strContains (build_prompt cfg command output errors rc)
        (strTake output cfg.outputCharsLimit) = true ∧
      (strTake output cfg.outputCharsLimit).length ≤ cfg.outputCharsLimit) ∧
    (output = "" →
      strContains (build_prompt cfg command output errors rc) "(no output)" = true) ∧
    (errors ≠ "" →
      strContains (build_prompt cfg command output errors rc)
        (strTake errors cfg.errorCharsLimit) = true ∧
      (strTake errors cfg.errorCharsLimit).length ≤ cfg.errorCharsLimit) ∧
    (errors = "" →
      strContains (build_prompt cfg command output errors rc) "(no errors)" = true) ∧
    ({ cfg with outputChars := none } : Config).outputCharsLimit = 15000 ∧
    ({ cfg with errorChars := none } : Config).errorCharsLimit = 5000 := by
  have htk : ∀ (s : String) (n : Nat), (strTake s n).length ≤ n := by
    intro s n
    show (s.data.take n).length ≤ n
    rw [List.length_take]
    omega
  refine ⟨?_, ?_, ?_, ?_, rfl, rfl⟩
  · intro hne
    refine ⟨?_, htk _ _⟩
    unfold build_prompt
    rw [if_neg hne]
    apply strContains_append_right
    apply strContains_append_right
    apply strContains_append_right
    exact strContains_append_self _ _
  · intro heq
    unfold build_prompt
    rw [if_pos heq]
    apply strContains_append_right
    apply strContains_append_right
    apply strContains_append_right
    exact strContains_append_self _ _
  · intro hne
    refine ⟨?_, htk _ _⟩
    unfold build_prompt
    rw [if_neg hne]
    apply strContains_append_right
    exact strContains_append_self _ _
  · intro heq
    unfold build_prompt
    rw [if_pos heq]
    apply strContains_append_right
    exact strContains_append_self _ _

/-- C10 witness: with the default configuration, a prompt built from stdout
text `"hello"` and empty stderr text contains the (un)truncated output and
the `"(no errors)"` placeholder, and the default output limit is 15000. -/
theorem prompt_truncates_captures_witness :
    strContains (build_prompt {} "ls" "hello" "" 0)
      (strTake "hello" (({} : Config)).outputCharsLimit) = true ∧
    strContains (build_prompt {} "ls" "hello" "" 0) "(no errors)" = true ∧
    ({} : Config).outputCharsLimit = 15000 := by
  have h := prompt_truncates_captures {} "ls" "hello" "" 0
  exact ⟨(h.1 (by decide)).1, h.2.2.2.1 rfl, rfl⟩

end Tern
